import Mathlib

/-!
Verification of the AI code-reviewer CLI (`code_reviewer.py`).

The program is shallowly embedded: every operation of the pipeline
(credential check, diff acquisition, prompt construction, remote call
handling, terminal rendering, entry-point wiring) is translated into an
executable Lean definition, with the external world (environment
variables, the file system, the git subprocess, the remote service's
response) supplied as explicit inputs.
-/

/-! ## Python string primitives

Python `str.startswith`, `str.split('\n')` and `str.strip()` are modelled
character-wise over `String.data`. -/

/-- `charsStart pat s`: the char list `s` begins with `pat`
(Python `s.startswith(pat)` on the underlying characters). -/
def charsStart : List Char → List Char → Bool
  | [], _ => true
  | _ :: _, [] => false
  | p :: ps, c :: cs => p == c && charsStart ps cs

/-- Python `line.startswith(pat)`. -/
def pyStartsWith (s pat : String) : Bool :=
  charsStart pat.data s.data

/-- `charsStart` followed by anything else in `s`: substring occurrence test. -/
def charsSub (pat : List Char) : List Char → Bool
  | [] => charsStart pat []
  | c :: rest => charsStart pat (c :: rest) || charsSub pat rest

/-- `pat` occurs as a contiguous substring of `s`. -/
def strSub (pat s : String) : Bool :=
  charsSub pat.data s.data

/-- Python `s.split('\n')` on the character list: splits at every newline,
keeping empty segments (so the result always has one more segment than
there are newlines). -/
def splitNLChars : List Char → List (List Char)
  | [] => [[]]
  | c :: rest =>
    if c = '\n' then [] :: splitNLChars rest
    else
      match splitNLChars rest with
      | h :: t => (c :: h) :: t
      | [] => [[c]]

/-- Python `review_text.split('\n')`. -/
def pySplitNL (s : String) : List String :=
  (splitNLChars s.data).map String.mk

/-- Python `str.isspace` characters relevant to `str.strip()` (ASCII whitespace). -/
def pyIsSpace (c : Char) : Bool :=
  c == ' ' || c == '\t' || c == '\n' || c == '\r' || c == Char.ofNat 11 || c == Char.ofNat 12

/-- Python `s.strip()`: remove leading and trailing whitespace. -/
def pyStrip (s : String) : String :=
  String.mk (((s.data.dropWhile pyIsSpace).reverse.dropWhile pyIsSpace).reverse)

/-- Python truthiness of an optional string: `None` and the empty string are falsy;
`a or b` keeps `a` when truthy, else yields `b`. -/
def pyOr (a b : Option String) : Option String :=
  match a with
  | some s => if s = "" then b else some s
  | none => b

/-! ## CodeReviewer.__init__ -/

/-- `CodeReviewer.__init__`: `self.api_key = api_key or os.getenv('ANTHROPIC_API_KEY')`;
raises `ValueError` (here: `none`) when the resulting key is missing or empty. -/
def init_reviewer (api_key envKey : Option String) : Option String :=
  match pyOr api_key envKey with
  | some s => if s = "" then none else some s
  | none => none

/-! ## CodeReviewer.get_git_diff -/

/-- Result of running the git subprocess: exit 0 with captured stdout,
or a non-zero exit (`subprocess.CalledProcessError`) with captured stderr. -/
inductive GitResult where
  | ok (stdout : String)
  | failed (stderr : String)
deriving DecidableEq

/-- The argument vector `get_git_diff` passes to `subprocess.run`. -/
def gitCommand (target_branch : String) (staged_only : Bool) : List String :=
  if staged_only then ["git", "diff", "--cached"]
  else ["git", "diff", target_branch ++ "...HEAD"]

/-- `CodeReviewer.get_git_diff`: returns the stdout on success; on
`CalledProcessError` logs the stderr and returns `None`. The second
component collects the log lines written. -/
def get_git_diff (res : GitResult) : Option String × List String :=
  match res with
  | .ok out => (some out, [])
  | .failed err => (none, ["Error getting git diff: " ++ err])

/-! ## CodeReviewer.review_code -/

/-- The fixed system prompt (persona and mandated output sections). -/
def system_prompt : String :=
  "You are an expert code reviewer. Analyze the provided git diff and provide a thorough, actionable code review.\n\nFocus on:\n1. **Bugs & Logic Errors**: Potential runtime errors, edge cases, null/undefined handling\n2. **Security Issues**: Vulnerabilities, injection risks, authentication/authorization problems\n3. **Performance**: Inefficient algorithms, memory leaks, unnecessary computations\n4. **Code Quality**: Readability, maintainability, naming conventions, complexity\n5. **Best Practices**: Language-specific idioms, design patterns, error handling\n\nFormat your review as:\n## Summary\nBrief overview of changes and overall assessment\n\n## Critical Issues (🔴)\nIssues that must be fixed before merge\n\n## Warnings (🟡)\nImportant issues to address\n\n## Suggestions (🟢)\nNice-to-have improvements\n\n## Positive Notes (✅)\nWhat was done well\n\nBe specific, reference line numbers when possible, and provide code examples for fixes."

/-- The user prompt f-string of `review_code`, interpolating the context and
the diff into the fixed template. -/
def user_prompt (diff_content context : String) : String :=
  "Review this code change:\n\n" ++ context ++ "\n\n```diff\n" ++ diff_content
    ++ "\n```\n\nProvide a detailed review following the format specified."

/-- The single request sent to the remote service. -/
structure ReviewRequest where
  model : String
  max_tokens : Nat
  system : String
  user : String
deriving DecidableEq

/-- `review_code` assembles exactly this request. -/
def build_request (diff_content context : String) : ReviewRequest :=
  ⟨"claude-haiku-4-5", 4000, system_prompt, user_prompt diff_content context⟩

/-- Outcome of the remote call: a successful response carrying its content
blocks, a structured `anthropic.APIError`, or any other exception
(network failure, malformed response, timeout) with its type name and message. -/
inductive ApiOutcome where
  | ok (blocks : List String)
  | apiError (msg : String)
  | otherError (exnName msg : String)
deriving DecidableEq

/-- `CodeReviewer.review_code`: builds the prompt, performs one call, and on
success returns `message.content[0].text`.  An empty content list makes
`content[0]` raise `IndexError`, which the generic handler catches.  Both
`except` clauses log and return `None`.  The second component collects the
log lines written. -/
def review_code (diff_content context : String) (resp : ApiOutcome) : Option String × List String :=
  let _req := build_request diff_content context
  match resp with
  | .ok (t :: _) => (some t, [])
  | .ok [] => (none, ["Unexpected error during API call: IndexError: list index out of range"])
  | .apiError m => (none, ["Anthropic API Error: " ++ m])
  | .otherError n m => (none, ["Unexpected error during API call: " ++ n ++ ": " ++ m])

/-! ## CodeReviewer.format_review -/

def HEADER : String := "\x1b[95m"
def OKBLUE : String := "\x1b[94m"
def OKGREEN : String := "\x1b[92m"
def WARNING : String := "\x1b[93m"
def FAIL : String := "\x1b[91m"
def ENDC : String := "\x1b[0m"
def BOLD : String := "\x1b[1m"

/-- The first-match-wins prefix chain applied to each line of the review. -/
def renderLine (line : String) : String :=
  if pyStartsWith line "## Critical" then FAIL ++ BOLD ++ line ++ ENDC
  else if pyStartsWith line "## Warning" then WARNING ++ BOLD ++ line ++ ENDC
  else if pyStartsWith line "## Suggestion" then OKBLUE ++ BOLD ++ line ++ ENDC
  else if pyStartsWith line "## Positive" then OKGREEN ++ BOLD ++ line ++ ENDC
  else if pyStartsWith line "##" then BOLD ++ line ++ ENDC
  else line

/-- The `"="*80` rule line. -/
def rule80 : String := String.mk (List.replicate 80 '=')

/-- `CodeReviewer.format_review` as the sequence of strings passed to `print`:
banner (three prints), one print per line of the review, closing rule. -/
def format_review (review_text : String) : List String :=
  ["\n" ++ rule80,
   BOLD ++ HEADER ++ "🤖 AI CODE REVIEW" ++ ENDC,
   rule80 ++ "\n"]
  ++ (pySplitNL review_text).map renderLine
  ++ ["\n" ++ rule80 ++ "\n"]

/-- The (style-opening, style-closing) marker pairs `renderLine` can wrap a
line in; the unstyled case contributes the empty pair. -/
def styleMarkers : List (String × String) :=
  [(FAIL ++ BOLD, ENDC), (WARNING ++ BOLD, ENDC), (OKBLUE ++ BOLD, ENDC),
   (OKGREEN ++ BOLD, ENDC), (BOLD, ENDC), ("", "")]

/-! ## The entry point `main` -/

/-- Outcome of reading the `--diff-file` path: its contents, a
`FileNotFoundError`, or any other failure of `open`/`read`
(permission denied, path is a directory, ...). -/
inductive FileResult where
  | content (s : String)
  | notFound
  | otherFailure (exn : String)
deriving DecidableEq

/-- How the process run ends: `sys.exit(code)` (or falling off the end of
`main`, which is `exited 0`), or an exception propagating out of `main`
uncaught — an abrupt termination with a traceback. -/
inductive RunEnd where
  | exited (code : Nat)
  | uncaught (exn : String)
deriving DecidableEq

/-- The external world of one invocation: the environment variable, the
parsed command-line options, and the responses of the file system, the git
subprocess and the remote service. -/
structure Env where
  envApiKey : Option String
  diffFile : Option String
  targetBranch : String
  staged : Bool
  context : String
  fileRead : String → FileResult
  gitResult : GitResult
  apiResp : ApiOutcome

/-- Observable result of one run: how the process ended, whether the git
subprocess and the remote service were invoked, the lines printed by
`format_review`, and the log lines written. -/
structure RunResult where
  term : RunEnd
  gitInvoked : Bool
  apiInvoked : Bool
  sentRequest : Option ReviewRequest
  printed : List String
  logs : List String
deriving DecidableEq

/-- Tail of `main` from `reviewer.review_code(...)` on: invoke the service,
render when the review is truthy, otherwise log and exit 1. -/
def reviewPhase (env : Env) (gitUsed : Bool) (diff_content : String)
    (logs0 : List String) : RunResult :=
  let logs1 := logs0 ++ ["🤖 Reviewing code with Claude Haiku 4.5...\n"]
  let r := review_code diff_content env.context env.apiResp
  let req := some (build_request diff_content env.context)
  match r.1 with
  | some review =>
    if review = "" then
      ⟨.exited 1, gitUsed, true, req, [],
        logs1 ++ r.2 ++ ["Failed to get review from API. Check the error messages above for details."]⟩
    else
      ⟨.exited 0, gitUsed, true, req, format_review review, logs1 ++ r.2⟩
  | none =>
    ⟨.exited 1, gitUsed, true, req, [],
      logs1 ++ r.2 ++ ["Failed to get review from API. Check the error messages above for details."]⟩

/-- The `else` branch of `main`'s diff acquisition: run git, then
`if not diff_content: exit(1)` (catches both `None` and `""`), then
`if not diff_content.strip(): exit(0)`. -/
def gitPhase (env : Env) : RunResult :=
  let g := get_git_diff env.gitResult
  let logs0 := "📊 Getting git diff..." :: g.2
  match g.1 with
  | none => ⟨.exited 1, true, false, none, [], logs0 ++ ["No changes found to review."]⟩
  | some s =>
    if s = "" then ⟨.exited 1, true, false, none, [], logs0 ++ ["No changes found to review."]⟩
    else if pyStrip s = "" then ⟨.exited 0, true, false, none, [], logs0 ++ ["No changes found to review."]⟩
    else reviewPhase env true s logs0

namespace CLI

/-- `main`: construct the reviewer (exit 1 with remediation instructions on
missing credential), acquire the diff from the file or from git
(`if args.diff_file:` is Python truthiness, so an empty path string falls
through to git; only `FileNotFoundError` is caught on the file path), then
review and render. -/
def main (env : Env) : RunResult :=
  match init_reviewer none env.envApiKey with
  | none =>
    ⟨.exited 1, false, false, none, [],
      ["Error: ANTHROPIC_API_KEY not found. Set it as an environment variable or pass it directly.",
       "\nTo set up your API key:",
       "  export ANTHROPIC_API_KEY=your-api-key-here"]⟩
  | some _ =>
    match env.diffFile with
    | none => gitPhase env
    | some p =>
      if p = "" then gitPhase env
      else
        match env.fileRead p with
        | .content s => reviewPhase env false s []
        | .notFound =>
          ⟨.exited 1, false, false, none, [], ["Error: File " ++ p ++ " not found"]⟩
        | .otherFailure e => ⟨.uncaught e, false, false, none, [], []⟩

end CLI

/-! ## Concrete environments for witnesses and counterexamples -/

/-- A run with a credential set, no `--diff-file`, defaults elsewhere. -/
def envBase : Env :=
  { envApiKey := some "sk-test", diffFile := none, targetBranch := "main",
    staged := false, context := "", fileRead := fun _ => .notFound,
    gitResult := .ok "+ added line\n", apiResp := .ok ["## Summary\nok"] }

/-- git exits zero with exactly-empty stdout. -/
def envGitEmpty : Env := { envBase with gitResult := .ok "" }

/-- git exits zero with whitespace-only stdout. -/
def envGitBlank : Env := { envBase with gitResult := .ok "   \n" }

/-- git exits non-zero. -/
def envGitFail : Env := { envBase with gitResult := .failed "fatal: bad revision" }

/-- No credential in the environment. -/
def envNoKey : Env := { envBase with envApiKey := none }

/-- `--diff-file` names a missing path. -/
def envFileMissing : Env :=
  { envBase with diffFile := some "sample.diff", fileRead := fun _ => .notFound }

/-- `--diff-file` read fails with a non-not-found error. -/
def envFileDenied : Env :=
  { envBase with diffFile := some "sample.diff", fileRead := fun _ => FileResult.otherFailure "PermissionError: Permission denied: sample.diff" }

/-- `--diff-file` names an existing file whose contents are whitespace-only. -/
def envFileBlank : Env :=
  { envBase with diffFile := some "empty.diff", fileRead := fun _ => .content "  \n" }

/-! ## Helper lemmas -/

theorem str_empty_append (s : String) : "" ++ s = s := by
  cases s; rfl

theorem str_append_empty (s : String) : s ++ "" = s := by
  cases s with
  | mk l => exact congrArg String.mk (List.append_nil l)

theorem charsStart_append (p b : List Char) : charsStart p (p ++ b) = true := by
  induction p with
  | nil => rfl
  | cons c cs ih => simp [charsStart, ih]

theorem charsSub_of_start (p s : List Char) (h : charsStart p s = true) :
    charsSub p s = true := by
  cases s with
  | nil => exact h
  | cons c rest => simp [charsSub, h]

theorem charsSub_cons (p s : List Char) (c : Char) (h : charsSub p s = true) :
    charsSub p (c :: s) = true := by
  simp [charsSub, h]

theorem charsSub_append_left (a p s : List Char) (h : charsSub p s = true) :
    charsSub p (a ++ s) = true := by
  induction a with
  | nil => exact h
  | cons c cs ih => exact charsSub_cons p (cs ++ s) c ih

theorem strSub_of_decomp (pat a b s : String) (h : s = a ++ pat ++ b) :
    strSub pat s = true := by
  subst h
  unfold strSub
  simp only [String.data_append, List.append_assoc]
  exact charsSub_append_left a.data pat.data (pat.data ++ b.data)
    (charsSub_of_start pat.data (pat.data ++ b.data) (charsStart_append pat.data b.data))

theorem user_prompt_decomp (d c : String) :
    user_prompt d c
      = ("Review this code change:\n\n" ++ c ++ "\n\n")
        ++ ("```diff\n" ++ d ++ "\n```")
        ++ "\n\nProvide a detailed review following the format specified." := by
  have h1 : ("\n\n" ++ "```diff\n" : String) = "\n\n```diff\n" := by decide
  have h2 : ("\n```" ++ "\n\nProvide a detailed review following the format specified." : String)
      = "\n```\n\nProvide a detailed review following the format specified." := by decide
  unfold user_prompt
  rw [← h1, ← h2]
  simp only [String.append_assoc]

theorem user_prompt_context_decomp (d c : String) :
    user_prompt d c
      = "Review this code change:\n\n" ++ c
        ++ ("\n\n```diff\n" ++ (d ++ "\n```\n\nProvide a detailed review following the format specified.")) := by
  unfold user_prompt
  simp only [String.append_assoc]

theorem getD_map_renderLine (L : List String) (i : Nat) (h : i < L.length) :
    (L.map renderLine).getD i "" = renderLine (L.getD i "") := by
  induction L generalizing i with
  | nil => simp at h
  | cons a l ih =>
    cases i with
    | zero => rfl
    | succ n =>
      simp only [List.map_cons, List.getD_cons_succ]
      exact ih n (by simpa using h)

theorem getD_append_lt (L M : List String) (i : Nat) (h : i < L.length) :
    (L ++ M).getD i "" = L.getD i "" := by
  induction L generalizing i with
  | nil => simp at h
  | cons a l ih =>
    cases i with
    | zero => rfl
    | succ n =>
      simp only [List.cons_append, List.getD_cons_succ]
      exact ih n (by simpa using h)

theorem renderLine_decomp (line : String) :
    ∃ p, p ∈ styleMarkers ∧ renderLine line = p.1 ++ line ++ p.2 := by
  unfold renderLine
  split
  · exact ⟨(FAIL ++ BOLD, ENDC), by simp [styleMarkers], by simp [String.append_assoc]⟩
  · split
    · exact ⟨(WARNING ++ BOLD, ENDC), by simp [styleMarkers], by simp [String.append_assoc]⟩
    · split
      · exact ⟨(OKBLUE ++ BOLD, ENDC), by simp [styleMarkers], by simp [String.append_assoc]⟩
      · split
        · exact ⟨(OKGREEN ++ BOLD, ENDC), by simp [styleMarkers], by simp [String.append_assoc]⟩
        · split
          · exact ⟨(BOLD, ENDC), by simp [styleMarkers], by simp [String.append_assoc]⟩
          · exact ⟨("", ""), by simp [styleMarkers],
              by rw [str_empty_append, str_append_empty]⟩

theorem reviewPhase_invokes (env : Env) (gitUsed : Bool) (d : String) (logs0 : List String) :
    (reviewPhase env gitUsed d logs0).apiInvoked = true
    ∧ (reviewPhase env gitUsed d logs0).gitInvoked = gitUsed
    ∧ (reviewPhase env gitUsed d logs0).sentRequest = some (build_request d env.context) := by
  unfold reviewPhase
  cases h : (review_code d env.context env.apiResp).1 with
  | none => simp [h]
  | some review => by_cases hr : review = "" <;> simp [h, hr]

/-! ## Claims -/

/-- Claim C1, counterexample: with the version-control tool exiting zero and
stdout exactly `""`, the entry point exits with code 1, not 0 — the
`if not diff_content:` guard conflates the empty string with the tool-failure
`None` result. -/
theorem c1_counterexample :
    envGitEmpty.gitResult = GitResult.ok "" ∧
    (CLI.main envGitEmpty).term = RunEnd.exited 1 ∧
    ¬ (CLI.main envGitEmpty).term = RunEnd.exited 0 ∧
    (CLI.main envGitEmpty).apiInvoked = false := by decide

/-- Claim C1 (amended): when no diff file is supplied and the tool exits zero,
a whitespace-only but non-empty output makes the entry point exit with code 0
without invoking the remote service; an exactly-empty output is conflated with
the tool-failure case and exits with code 1, also without invoking the remote
service. -/
theorem c1_git_empty_diff (env : Env) (k s : String)
    (hk : env.envApiKey = some k) (hk0 : k ≠ "")
    (hd : env.diffFile = none) (hg : env.gitResult = .ok s) :
    (s ≠ "" → pyStrip s = "" →
      (CLI.main env).term = .exited 0 ∧ (CLI.main env).apiInvoked = false) ∧
    (s = "" →
      (CLI.main env).term = .exited 1 ∧ (CLI.main env).apiInvoked = false) := by
  constructor
  · intro hs hstrip
    simp [CLI.main, init_reviewer, pyOr, hk, hk0, hd, gitPhase, get_git_diff, hg, hs, hstrip]
  · intro hs
    subst hs
    simp [CLI.main, init_reviewer, pyOr, hk, hk0, hd, gitPhase, get_git_diff, hg]

/-- Claim C1, witness: the amended theorem applied to concrete runs with
whitespace-only and exactly-empty git stdout. -/
theorem c1_witness :
    ((CLI.main envGitBlank).term = .exited 0 ∧ (CLI.main envGitBlank).apiInvoked = false) ∧
    ((CLI.main envGitEmpty).term = .exited 1 ∧ (CLI.main envGitEmpty).apiInvoked = false) :=
  ⟨(c1_git_empty_diff envGitBlank "sk-test" "   \n" rfl (by decide) rfl rfl).1
      (by decide) (by decide),
   (c1_git_empty_diff envGitEmpty "sk-test" "" rfl (by decide) rfl rfl).2 rfl⟩

/-- Claim C2, counterexample: a read failure other than not-found (here a
permission error) is not caught by the entry point: the run ends as an
uncaught exception, not as an explicit `sys.exit`. -/
theorem c2_counterexample :
    (CLI.main envFileDenied).term
      = RunEnd.uncaught "PermissionError: Permission denied: sample.diff" ∧
    ¬ (CLI.main envFileDenied).term = RunEnd.exited 1 ∧
    ¬ (CLI.main envFileDenied).term = RunEnd.exited 0 := by decide

/-- Claim C2 (amended): when reading the `--diff-file` path, only the
not-found failure is handled — it exits with code 1 after logging — while any
other read failure propagates out of `main` uncaught, terminating the process
abruptly rather than via an explicit exit. -/
theorem c2_diff_file_read_failure (env : Env) (k p : String)
    (hk : env.envApiKey = some k) (hk0 : k ≠ "")
    (hp : env.diffFile = some p) (hp0 : p ≠ "") :
    (env.fileRead p = .notFound →
      (CLI.main env).term = .exited 1 ∧
      (CLI.main env).logs = ["Error: File " ++ p ++ " not found"]) ∧
    (∀ e, env.fileRead p = .otherFailure e →
      (CLI.main env).term = .uncaught e ∧ (CLI.main env).apiInvoked = false) := by
  constructor
  · intro hf
    simp [CLI.main, init_reviewer, pyOr, hk, hk0, hp, hp0, hf]
  · intro e hf
    simp [CLI.main, init_reviewer, pyOr, hk, hk0, hp, hp0, hf]

/-- Claim C2, witness: the amended theorem applied to a missing path and to a
permission-denied path. -/
theorem c2_witness :
    ((CLI.main envFileMissing).term = .exited 1 ∧
      (CLI.main envFileMissing).logs = ["Error: File " ++ "sample.diff" ++ " not found"]) ∧
    ((CLI.main envFileDenied).term
        = .uncaught "PermissionError: Permission denied: sample.diff" ∧
      (CLI.main envFileDenied).apiInvoked = false) :=
  ⟨(c2_diff_file_read_failure envFileMissing "sk-test" "sample.diff" rfl (by decide)
      rfl (by decide)).1 rfl,
   (c2_diff_file_read_failure envFileDenied "sk-test" "sample.diff" rfl (by decide)
      rfl (by decide)).2 "PermissionError: Permission denied: sample.diff" rfl⟩

/-- Claim C3, counterexample: the user message does not begin with the context
string; it begins with the literal instruction line, so the claimed order
(context first, then the instruction line) is wrong. -/
theorem c3_counterexample :
    pyStartsWith (user_prompt "D" "CTX") "CTX" = false ∧
    pyStartsWith (user_prompt "D" "CTX") "Review this code change:" = true := by decide

/-- Claim C3 (amended): for every diff and context string, the user message
interpolates, in order: the literal instruction line, then the context string
(possibly empty), then the diff wrapped in a fenced code block labeled as diff
syntax, then the trailing instruction to follow the specified format, with
blank-line separators between the parts. -/
theorem c3_user_prompt_part_order (d c : String) :
    user_prompt d c
      = "Review this code change:" ++ "\n\n" ++ c ++ "\n\n" ++ "```diff\n" ++ d
        ++ "\n```" ++ "\n\n" ++ "Provide a detailed review following the format specified." := by
  have hA : ("Review this code change:" ++ "\n\n" : String)
      = "Review this code change:\n\n" := by decide
  have hB : ("\n\n" ++ "```diff\n" : String) = "\n\n```diff\n" := by decide
  have hC : ("\n```" ++ ("\n\n" ++ "Provide a detailed review following the format specified.")
        : String)
      = "\n```\n\nProvide a detailed review following the format specified." := by decide
  unfold user_prompt
  rw [← hA, ← hB, ← hC]
  simp only [String.append_assoc]

/-- Claim C4: each line is classified by the first matching rule of the
ordered, case-sensitive prefix table, by line-start prefix rather than
full-line equality; non-matching lines are printed verbatim.  The last two
conjuncts check the concrete examples from the specification. -/
theorem c4_first_match_styling (line : String) :
    (pyStartsWith line "## Critical" = true →
      renderLine line = FAIL ++ BOLD ++ line ++ ENDC) ∧
    (pyStartsWith line "## Critical" = false →
      pyStartsWith line "## Warning" = true →
      renderLine line = WARNING ++ BOLD ++ line ++ ENDC) ∧
    (pyStartsWith line "## Critical" = false →
      pyStartsWith line "## Warning" = false →
      pyStartsWith line "## Suggestion" = true →
      renderLine line = OKBLUE ++ BOLD ++ line ++ ENDC) ∧
    (pyStartsWith line "## Critical" = false →
      pyStartsWith line "## Warning" = false →
      pyStartsWith line "## Suggestion" = false →
      pyStartsWith line "## Positive" = true →
      renderLine line = OKGREEN ++ BOLD ++ line ++ ENDC) ∧
    (pyStartsWith line "## Critical" = false →
      pyStartsWith line "## Warning" = false →
      pyStartsWith line "## Suggestion" = false →
      pyStartsWith line "## Positive" = false →
      pyStartsWith line "##" = true →
      renderLine line = BOLD ++ line ++ ENDC) ∧
    (pyStartsWith line "## Critical" = false →
      pyStartsWith line "## Warning" = false →
      pyStartsWith line "## Suggestion" = false →
      pyStartsWith line "## Positive" = false →
      pyStartsWith line "##" = false →
      renderLine line = line) ∧
    renderLine "## Critical Issues (something)"
      = FAIL ++ BOLD ++ "## Critical Issues (something)" ++ ENDC ∧
    renderLine "## Warnings (something)"
      = WARNING ++ BOLD ++ "## Warnings (something)" ++ ENDC := by
  refine ⟨?_, ?_, ?_, ?_, ?_, ?_, by decide, by decide⟩ <;>
    · intros
      simp [renderLine, *]

/-- Claim C4, witness: the warning rule applied to a concrete line that is not
exactly a heading. -/
theorem c4_witness :
    renderLine "## Warning: check input"
      = WARNING ++ BOLD ++ "## Warning: check input" ++ ENDC :=
  (c4_first_match_styling "## Warning: check input").2.1 (by decide) (by decide)

/-- Claim C5: for every non-empty diff and any context, the user message
contains the diff verbatim inside the fenced code block and the context
verbatim; with an empty context the message is just the template with nothing
in the context slot. -/
theorem c5_prompt_contains (d c : String) (hd : d ≠ "") :
    strSub ("```diff\n" ++ d ++ "\n```") (user_prompt d c) = true ∧
    (c ≠ "" → strSub c (user_prompt d c) = true) ∧
    user_prompt d ""
      = "Review this code change:\n\n\n\n```diff\n" ++ d
        ++ "\n```\n\nProvide a detailed review following the format specified." := by
  refine ⟨?_, ?_, ?_⟩
  · exact strSub_of_decomp _ _ _ _ (user_prompt_decomp d c)
  · intro _
    exact strSub_of_decomp _ _ _ _ (user_prompt_context_decomp d c)
  · have h0 : ("Review this code change:\n\n" ++ "" : String)
        = "Review this code change:\n\n" := by decide
    have h1 : ("Review this code change:\n\n" ++ "\n\n```diff\n" : String)
        = "Review this code change:\n\n\n\n```diff\n" := by decide
    unfold user_prompt
    rw [h0, h1]

/-- Claim C5, witness: the theorem at a concrete one-line diff and context. -/
theorem c5_witness :
    strSub ("```diff\n" ++ "+x = 1" ++ "\n```") (user_prompt "+x = 1" "CTX") = true ∧
    strSub "CTX" (user_prompt "+x = 1" "CTX") = true :=
  ⟨(c5_prompt_contains "+x = 1" "CTX" (by decide)).1,
   (c5_prompt_contains "+x = 1" "CTX" (by decide)).2.1 (by decide)⟩

/-- Claim C6: the renderer splits the review on line breaks and emits every
line exactly once, in order (the three banner prints come before, the closing
rule after), and each emitted line is the input line with only the style
markers of its class around it. -/
theorem c6_lines_preserved (t : String) (i : Nat) (h : i < (pySplitNL t).length) :
    (format_review t).length = (pySplitNL t).length + 4 ∧
    ∃ p, p ∈ styleMarkers ∧
      (format_review t).getD (i + 3) "" = p.1 ++ (pySplitNL t).getD i "" ++ p.2 := by
  constructor
  · simp only [format_review, List.length_append, List.length_map, List.length_cons,
      List.length_nil]
    omega
  · obtain ⟨p, hp, hdecomp⟩ := renderLine_decomp ((pySplitNL t).getD i "")
    refine ⟨p, hp, ?_⟩
    have hform : format_review t
        = ("\n" ++ rule80) :: (BOLD ++ HEADER ++ "🤖 AI CODE REVIEW" ++ ENDC)
            :: (rule80 ++ "\n")
            :: ((pySplitNL t).map renderLine ++ ["\n" ++ rule80 ++ "\n"]) := by
      simp [format_review]
    rw [hform]
    show (((pySplitNL t).map renderLine ++ ["\n" ++ rule80 ++ "\n"]).getD i "") = _
    rw [getD_append_lt _ _ i (by simpa using h), getD_map_renderLine _ i h]
    exact hdecomp

/-- Claim C6, witness: the theorem at a concrete two-line review, second line. -/
theorem c6_witness :
    (format_review "## Summary\nAll good").length
      = (pySplitNL "## Summary\nAll good").length + 4 ∧
    ∃ p, p ∈ styleMarkers ∧
      (format_review "## Summary\nAll good").getD (1 + 3) ""
        = p.1 ++ (pySplitNL "## Summary\nAll good").getD 1 "" ++ p.2 :=
  c6_lines_preserved "## Summary\nAll good" 1 (by decide)

/-- Claim C7: on a non-zero git exit the resolver returns `None` (no exception
crosses the resolver boundary — `get_git_diff` is total on this input), after
logging the tool's stderr, and the entry point then exits with code 1 without
invoking the remote service. -/
theorem c7_git_nonzero (env : Env) (k e : String)
    (hk : env.envApiKey = some k) (hk0 : k ≠ "")
    (hd : env.diffFile = none) (hg : env.gitResult = .failed e) :
    (get_git_diff (GitResult.failed e)).1 = none ∧
    ("Error getting git diff: " ++ e) ∈ (get_git_diff (GitResult.failed e)).2 ∧
    ("Error getting git diff: " ++ e) ∈ (CLI.main env).logs ∧
    (CLI.main env).term = .exited 1 ∧
    (CLI.main env).apiInvoked = false := by
  refine ⟨rfl, by simp [get_git_diff], ?_, ?_, ?_⟩ <;>
    simp [CLI.main, init_reviewer, pyOr, hk, hk0, hd, gitPhase, get_git_diff, hg]

/-- Claim C7, witness: the theorem at a concrete failing git run. -/
theorem c7_witness :
    (get_git_diff (GitResult.failed "fatal: bad revision")).1 = none ∧
    ("Error getting git diff: " ++ "fatal: bad revision")
      ∈ (get_git_diff (GitResult.failed "fatal: bad revision")).2 ∧
    ("Error getting git diff: " ++ "fatal: bad revision") ∈ (CLI.main envGitFail).logs ∧
    (CLI.main envGitFail).term = .exited 1 ∧
    (CLI.main envGitFail).apiInvoked = false :=
  c7_git_nonzero envGitFail "sk-test" "fatal: bad revision" rfl (by decide) rfl rfl

/-- Claim C8: with no credential (no environment value; `main` passes no
explicit argument), construction fails before any git or remote call — neither
is invoked — and the process exits 1 after logging remediation instructions. -/
theorem c8_missing_credential (env : Env) (h : env.envApiKey = none) :
    (CLI.main env).term = .exited 1 ∧
    (CLI.main env).gitInvoked = false ∧
    (CLI.main env).apiInvoked = false ∧
    (CLI.main env).sentRequest = none ∧
    "  export ANTHROPIC_API_KEY=your-api-key-here" ∈ (CLI.main env).logs := by
  simp [CLI.main, init_reviewer, pyOr, h]

/-- Claim C8, witness: the theorem at a concrete credential-free run. -/
theorem c8_witness :
    (CLI.main envNoKey).term = .exited 1 ∧
    (CLI.main envNoKey).gitInvoked = false ∧
    (CLI.main envNoKey).apiInvoked = false ∧
    (CLI.main envNoKey).sentRequest = none ∧
    "  export ANTHROPIC_API_KEY=your-api-key-here" ∈ (CLI.main envNoKey).logs :=
  c8_missing_credential envNoKey rfl

/-- Claim C9: the review client is a total function (it never raises): on
success it returns the first content block's text; a structured API error and
any other error both log and return `None`, and the two failure origins are
indistinguishable in the returned value. -/
theorem c9_review_client (d c : String) (resp : ApiOutcome) :
    (∀ t rest, resp = .ok (t :: rest) → (review_code d c resp).1 = some t) ∧
    (∀ m, resp = .apiError m → (review_code d c resp).1 = none ∧
      ("Anthropic API Error: " ++ m) ∈ (review_code d c resp).2) ∧
    (∀ n m, resp = .otherError n m → (review_code d c resp).1 = none ∧
      ("Unexpected error during API call: " ++ n ++ ": " ++ m) ∈ (review_code d c resp).2) ∧
    (∀ m n m2, (review_code d c (.apiError m)).1 = (review_code d c (.otherError n m2)).1) := by
  refine ⟨?_, ?_, ?_, ?_⟩
  · rintro t rest rfl; rfl
  · rintro m rfl; exact ⟨rfl, by simp [review_code]⟩
  · rintro n m rfl; exact ⟨rfl, by simp [review_code]⟩
  · intro m n m2; rfl

/-- Claim C9, witness: the theorem at a concrete success and a concrete API
error. -/
theorem c9_witness :
    (review_code "+x" "" (.ok ["looks fine"])).1 = some "looks fine" ∧
    (review_code "+x" "" (.apiError "overloaded")).1 = none :=
  ⟨(c9_review_client "+x" "" (.ok ["looks fine"])).1 "looks fine" [] rfl,
   ((c9_review_client "+x" "" (.apiError "overloaded")).2.1 "overloaded" rfl).1⟩

/-- Claim C10: the empty/whitespace-only short-circuit applies only to the git
path: with `--diff-file` naming an existing file whose contents are
whitespace-only (or empty), the entry point still builds the request from that
diff and invokes the remote service, and git is never run. -/
theorem c10_file_blank_diff_reviews (env : Env) (k p s : String)
    (hk : env.envApiKey = some k) (hk0 : k ≠ "")
    (hp : env.diffFile = some p) (hp0 : p ≠ "")
    (hf : env.fileRead p = .content s) (hs : pyStrip s = "") :
    (CLI.main env).apiInvoked = true ∧
    (CLI.main env).gitInvoked = false ∧
    (CLI.main env).sentRequest = some (build_request s env.context) := by
  have hmain : CLI.main env = reviewPhase env false s [] := by
    simp [CLI.main, init_reviewer, pyOr, hk, hk0, hp, hp0, hf]
  rw [hmain]
  exact ⟨(reviewPhase_invokes env false s []).1, (reviewPhase_invokes env false s []).2.1,
    (reviewPhase_invokes env false s []).2.2⟩

/-- Claim C10, witness: the theorem at a concrete whitespace-only diff file. -/
theorem c10_witness :
    (CLI.main envFileBlank).apiInvoked = true ∧
    (CLI.main envFileBlank).gitInvoked = false ∧
    (CLI.main envFileBlank).sentRequest = some (build_request "  \n" envFileBlank.context) :=
  c10_file_blank_diff_reviews envFileBlank "sk-test" "empty.diff" "  \n" rfl (by decide)
    rfl (by decide) rfl (by decide)
